import Mathlib

/-!
Verification of the two command-line programs in this repository against
their specification.

The programs are thin orchestration scripts over an object-storage client
library and an OpenTelemetry tracing library.  We embed each function as a
Lean function that returns the ordered list of observable collaborator
calls (span creation, attribute setting, stream opens, reads, writes,
sleeps, fatal terminations, ...) that one run performs, parameterized by
the outcomes of the fallible collaborator calls (stubs).  Go `defer`
statements are reflected by appending the deferred events, in LIFO order,
at each return point; `log.Fatal*` terminates the process immediately, so
no deferred events follow a `fatal` event.
-/

/-- One observable collaborator call made by the programs. -/
inductive Event where
  /-- the call `Tracer(tracer).Start(ctx, spanName)` -/
  | spanStart (tracer : String) (spanName : String)
  /-- the call `span.SetAttributes` applied to the span named `target`, carrying the
  attributes `object = obj` and `mykey = apiVal`. -/
  | setAttr (target : String) (obj : String) (apiVal : String)
  /-- the call `span.End()` on the span named `spanName` -/
  | spanEnd (spanName : String)
  /-- generation of the object name (`fmt.Sprintf` over `uuid.New()`) -/
  | genName (name : String)
  /-- the statement `start := time.Now()` -/
  | timerStart
  /-- the deferred `runTime = time.Since(start)` -/
  | timerStop
  /-- the call `o.NewWriter(ctx)` -/
  | newWriter
  /-- the call `time.Sleep(n seconds)` -/
  | sleepSec (n : Nat)
  /-- the call `io.CopyN(w, rand.Reader, n)` completing successfully -/
  | writeN (n : Nat)
  /-- the call `w.Close()` -/
  | writerClose
  /-- the call `o.NewRangeReader(ctx, off, len)` -/
  | newRangeReader (off : Nat) (len : Nat)
  /-- the call `io.CopyN(io.Discard, r, n)` completing successfully -/
  | readAndDiscard (n : Nat)
  /-- the call `r.Close()` -/
  | readerClose
  /-- the call `os.Setenv(k, v)` -/
  | setEnvVar (k : String) (v : String)
  /-- the call `storage.NewGRPCClient(ctx)` -/
  | newGRPCClient
  /-- the call `htransport.NewTransport(...)` with the HTTP/1 base transport -/
  | newHTTPTransport
  /-- the call `storage.NewClient(ctx, ...)` -/
  | newHTTPClient
  /-- a call `log.Fatal*` with the given message: the process exits here -/
  | fatal (msg : String)
  /-- the body of `enableTracing` (exporter, resource, provider setup) -/
  | enableTracingSetup
  /-- the returned teardown closure: `tp.ForceFlush` + `tp.Shutdown` -/
  | teardownTracing
  /-- the call `fmt.Printf("time of all ops: %v\n", total)` -/
  | printTotal (total : Nat)
  /-- the call `os.Create(cpuprofile)` succeeding -/
  | createProfileFile
  /-- the call `pprof.StartCPUProfile(f)` succeeding -/
  | startCPUProfile
  /-- deferred `pprof.StopCPUProfile()` -/
  | stopCPUProfile
  /-- deferred `f.Close()` on the profile file -/
  | closeProfileFile
  /-- the call `google.DefaultTokenSource(ctx, scope)` -/
  | getTokenSource (scope : String)
  /-- the call `control.NewStorageControlClient(ctx, opts...)` -/
  | newControlClient
  /-- the call `fmt.Println("Successfully created control client:", ...)` -/
  | printClient
  /-- the call `controlClient.GetStorageLayout(ctx, req)` with `req.Name = name` -/
  | getStorageLayout (name : String)
  /-- the call `fmt.Printf("Storage Layout: %v\n", layout)` -/
  | printLayout
deriving DecidableEq, Repr

namespace TransferBench

/-- The three recognized values of the `-api` flag. -/
def http1 : String := "http1"

/-- Default value of the `-api` flag. -/
def http2 : String := "http2"

/-- The gRPC direct-path value of the `-api` flag. -/
def dp : String := "grpc-dp"

/-- Outcomes of the fallible collaborator calls inside `upload`. -/
structure UploadStub where
  /-- does `io.CopyN(w, rand.Reader, 10 MiB)` succeed -/
  copyOk : Bool
  /-- does `w.Close()` succeed -/
  closeOk : Bool
deriving DecidableEq, Repr

/-- The all-success upload stub. -/
def uAllOk : UploadStub := ⟨true, true⟩

/-- Embedding of `upload(ctx, withSpan)` from `src/unnamed/part_000`
(lines 138-178).  `objectId` stands for the random UUID string; the object
name is `"trace_" ++ objectId`.  `api` is the value of the `-api` flag
(used only as a span attribute here).  Returns the event list of the run
together with `true` iff the function returns a nil error.  The deferred
calls (`span.End` when `withSpan`, then the timer-stop closure, registered
in that order) run in LIFO order at every return: timer stop first, then
the span end.  On a copy error the code calls `w.Close()` explicitly
before returning; no `writeN` event is emitted for the failed copy. -/
def upload (objectId : String) (api : String) (withSpan : Bool)
    (s : UploadStub) : List Event × Bool :=
  let objectName := "trace_" ++ objectId
  let spanPre : List Event :=
    if withSpan then
      [Event.spanStart "go-ups" "uploada",
       Event.setAttr "uploada" objectName api]
    else []
  let spanPost : List Event :=
    if withSpan then [Event.spanEnd "uploada"] else []
  let pre : List Event :=
    [Event.genName objectName] ++ spanPre ++
    [Event.timerStart, Event.newWriter, Event.sleepSec 1]
  if s.copyOk = false then
    (pre ++ [Event.writerClose, Event.timerStop] ++ spanPost, false)
  else if s.closeOk = false then
    (pre ++ [Event.writeN (10 * 1024 * 1024), Event.writerClose,
             Event.timerStop] ++ spanPost, false)
  else
    (pre ++ [Event.writeN (10 * 1024 * 1024), Event.writerClose,
             Event.timerStop] ++ spanPost, true)

/-- Outcomes of the fallible collaborator calls inside `download`. -/
structure DownloadStub where
  /-- does `o.NewRangeReader(ctx, 0, 1 MiB)` succeed -/
  newReaderOk : Bool
  /-- does the first `io.CopyN(io.Discard, r, 1024)` succeed -/
  read1Ok : Bool
  /-- does the second `io.CopyN(io.Discard, r, 1 MiB - 1 KiB)` succeed -/
  read2Ok : Bool
  /-- does the final `r.Close()` succeed -/
  closeOk : Bool
deriving DecidableEq, Repr

/-- The all-success download stub. -/
def dAllOk : DownloadStub := ⟨true, true, true, true⟩

/-- Embedding of `download(ctx, o, withSpan)` from `src/unnamed/part_000`
(lines 180-262).  `objectName` is `o.ObjectName()`.  Independently of
`withSpan`, the body always starts `"user-span-1"` (line 199) and
`"user-span-2"` (line 228); the `SetAttributes` call at lines 229-232,
which follows the creation of `spanB` (`"user-span-2"`), is made on the
variable `span`, i.e. on `"user-span-1"`, which was already ended at line
223.  `user-span-1` is ended only on the success path past line 216, and
`user-span-2` only past line 235; on the failed-read paths the code calls
`r.Close()` before returning.  The deferred calls (wrapper `span.End`
when `withSpan`, then timer stop) run LIFO at every return. -/
def download (objectName : String) (api : String) (withSpan : Bool)
    (s : DownloadStub) : List Event × Bool :=
  let spanPre : List Event :=
    if withSpan then
      [Event.spanStart "go-ups" "downloads",
       Event.setAttr "downloads" objectName api]
    else []
  let spanPost : List Event :=
    if withSpan then [Event.spanEnd "downloads"] else []
  let pre : List Event :=
    spanPre ++
    [Event.timerStart,
     Event.spanStart "go-downs" "user-span-1",
     Event.setAttr "user-span-1" objectName api,
     Event.newRangeReader 0 (1024 * 1024)]
  if s.newReaderOk = false then
    (pre ++ [Event.timerStop] ++ spanPost, false)
  else if s.read1Ok = false then
    (pre ++ [Event.readerClose, Event.timerStop] ++ spanPost, false)
  else
    let p2 : List Event :=
      pre ++
      [Event.readAndDiscard 1024,
       Event.spanEnd "user-span-1",
       Event.sleepSec 100,
       Event.spanStart "go-ups" "user-span-2",
       Event.setAttr "user-span-1" objectName api]
    if s.read2Ok = false then
      (p2 ++ [Event.readerClose, Event.timerStop] ++ spanPost, false)
    else
      let p3 : List Event :=
        p2 ++
        [Event.readAndDiscard (1024 * 1024 - 1024),
         Event.spanEnd "user-span-2",
         Event.sleepSec 5,
         Event.readerClose]
      if s.closeOk = false then
        (p3 ++ [Event.timerStop] ++ spanPost, false)
      else
        (p3 ++ [Event.timerStop] ++ spanPost, true)

/-- Embedding of `getClient(ctx)` from `src/unnamed/part_000`
(lines 299-343): a switch on the `-api` flag value.  The `grpc-dp` case
sets an environment variable and constructs a gRPC client; `http2`
constructs the default client; `http1` builds an HTTP/1-only transport
and passes it to the client constructor; any other value hits the
`default` branch, which is `log.Fatalln("invalid -api")`.  Client
construction is stubbed as succeeding; its failure paths are all fatal
and construct nothing further, which no claim depends on. -/
def getClient (api : String) : List Event :=
  if api = dp then
    [Event.setEnvVar "GOOGLE_CLOUD_ENABLE_DIRECT_PATH_XDS" "true",
     Event.newGRPCClient]
  else if api = http2 then
    [Event.newHTTPClient]
  else if api = http1 then
    [Event.newHTTPTransport, Event.newHTTPClient]
  else
    [Event.fatal "invalid -api"]

/-- Whether the `-api` flag value is one of the recognized constants. -/
def apiValid (api : String) : Bool :=
  api == dp || api == http2 || api == http1

/-- Outcomes and stub durations for one run of `main`. -/
structure MainStub where
  /-- does `os.Create(cpuprofile)` succeed (relevant when the flag is set) -/
  profileCreateOk : Bool
  /-- does `pprof.StartCPUProfile(f)` succeed -/
  profileStartOk : Bool
  /-- stub outcomes of the `upload` phase -/
  up : UploadStub
  /-- stub outcomes of the `download` phase -/
  down : DownloadStub
  /-- stub value of `timetakenU` reported by `upload` (wall clock, opaque) -/
  durU : Nat
  /-- stub value of `timetakenD` reported by `download` -/
  durD : Nat
deriving DecidableEq, Repr

/-- All-success main stub with the given stub durations. -/
def mAllOk (durU durD : Nat) : MainStub :=
  ⟨true, true, uAllOk, dAllOk, durU, durD⟩

/-- Main stub in which the upload copy fails and everything else succeeds. -/
def mUploadFail (durU durD : Nat) : MainStub :=
  ⟨true, true, ⟨false, true⟩, dAllOk, durU, durD⟩

/-- Main stub in which the download's first read fails and everything
else succeeds. -/
def mDownloadFail (durU durD : Nat) : MainStub :=
  ⟨true, true, uAllOk, ⟨true, false, true, true⟩, durU, durD⟩

/-- Embedding of `main()` from `src/unnamed/part_000` (lines 50-95).
Order: `getClient` (whose `default` branch is fatal), `enableTracing`
(its internals are collapsed into one `enableTracingSetup` event; its
returned closure is the `teardownTracing` event, registered with
`defer close()`), the optional CPU-profile block (`defer f.Close()` and
`defer pprof.StopCPUProfile()` registered in that order), `upload`,
`download`, and the final print of `timetakenC + timetakenD + timetakenU`
where `timetakenC` is initialized to `0` and never reassigned (the
`listObjs` call is commented out).  `log.Fatalf` after a failed phase
exits the process at once, so none of the deferred events — in
particular `teardownTracing` — appear after a `fatal` event.  On the
normal return the deferred calls run LIFO: `pprof.StopCPUProfile()`,
`f.Close()`, then `close()`. -/
def main (api : String) (objectId : String) (addSpans : Bool)
    (cpuprofile : String) (s : MainStub) : List Event :=
  if apiValid api = false then
    getClient api
  else
    let pre : List Event := getClient api ++ [Event.enableTracingSetup]
    if cpuprofile ≠ "" ∧ s.profileCreateOk = false then
      pre ++ [Event.fatal "could not create CPU profile"]
    else if cpuprofile ≠ "" ∧ s.profileStartOk = false then
      pre ++ [Event.createProfileFile, Event.fatal "could not start CPU profile"]
    else
      let prof : List Event :=
        if cpuprofile ≠ "" then
          [Event.createProfileFile, Event.startCPUProfile]
        else []
      let u := upload objectId api addSpans s.up
      if u.2 = false then
        pre ++ prof ++ u.1 ++ [Event.fatal "upload failed"]
      else
        let d := download ("trace_" ++ objectId) api addSpans s.down
        if d.2 = false then
          pre ++ prof ++ u.1 ++ d.1 ++ [Event.fatal "download failed"]
        else
          pre ++ prof ++ u.1 ++ d.1 ++
          [Event.printTotal (0 + s.durD + s.durU)] ++
          (if cpuprofile ≠ "" then
            [Event.stopCPUProfile, Event.closeProfileFile]
           else []) ++
          [Event.teardownTracing]

end TransferBench

namespace LayoutInspector

/-- The OAuth scope requested from `google.DefaultTokenSource` in
`src/fuse_storage_layout/main.go` line 17. -/
def scope : String := "https://www.googleapis.com/auth/devstorage.full_control"

/-- The hardcoded storage-layout resource path, line 37. -/
def layoutName : String := "projects/_/buckets/mhall-golang-test/storageLayout"

/-- Embedding of `main()` from `src/fuse_storage_layout/main.go`
(lines 14-46): obtain a default token source for the full-control scope,
build a storage-control client with that token source, print the client,
issue one `GetStorageLayout` call for the hardcoded resource path, print
the returned layout.  Each of the three fallible calls is fatal on error
(`log.Fatalf`), terminating the process with no retry. -/
def main (tokOk clientOk callOk : Bool) : List Event :=
  if tokOk = false then
    [Event.getTokenSource scope,
     Event.fatal "JWTAccessTokenSourceWithScope"]
  else if clientOk = false then
    [Event.getTokenSource scope, Event.newControlClient,
     Event.fatal "failed to create control client"]
  else if callOk = false then
    [Event.getTokenSource scope, Event.newControlClient,
     Event.printClient, Event.getStorageLayout layoutName,
     Event.fatal "failed to get storage layout"]
  else
    [Event.getTokenSource scope, Event.newControlClient,
     Event.printClient, Event.getStorageLayout layoutName,
     Event.printLayout]

end LayoutInspector

/-! Projections of event traces used by the properties below. -/

/-- Is the event a span-producing call (a `Tracer.Start`). -/
def Event.isSpanStart : Event → Bool
  | .spanStart _ _ => true
  | _ => false

/-- Number of span-producing calls in a trace. -/
def countSpanStarts (es : List Event) : Nat :=
  (es.filter Event.isSpanStart).length

/-- Is the event part of the span lifecycle (a `Start` or an `End`). -/
def Event.isSpanEv : Event → Bool
  | .spanStart _ _ => true
  | .spanEnd _ => true
  | _ => false

/-- Subtrace of span starts and ends, in order. -/
def spanTrace (es : List Event) : List Event :=
  es.filter Event.isSpanEv

/-- Is the event a span start, span end, or attribute-setting call. -/
def Event.isSpanOrAttr : Event → Bool
  | .spanStart _ _ => true
  | .spanEnd _ => true
  | .setAttr _ _ _ => true
  | _ => false

/-- Subtrace of span starts, ends and attribute settings, in order. -/
def spanAttrTrace (es : List Event) : List Event :=
  es.filter Event.isSpanOrAttr

/-- Does some attribute-setting call in the trace target the span named
`t`. -/
def attrTargets (t : String) (es : List Event) : Bool :=
  es.any fun e =>
    match e with
    | .setAttr u _ _ => u == t
    | _ => false

/-- Is the event part of the read phase: range-reader open, a discard
read, a sleep, or the reader close. -/
def Event.isReadPhase : Event → Bool
  | .newRangeReader _ _ => true
  | .readAndDiscard _ => true
  | .sleepSec _ => true
  | .readerClose => true
  | _ => false

/-- Total number of bytes read and discarded in a trace. -/
def readTotal : List Event → Nat
  | [] => 0
  | Event.readAndDiscard n :: es => n + readTotal es
  | _ :: es => readTotal es

/-- Is the event part of the write phase: name generation, writer open,
a sleep, a completed write, or the writer close. -/
def Event.isWritePhase : Event → Bool
  | .genName _ => true
  | .newWriter => true
  | .sleepSec _ => true
  | .writeN _ => true
  | .writerClose => true
  | _ => false

/-- Is the event a timer boundary, the name generation, or a writer
open/close: the events that locate the measured upload interval. -/
def Event.isTimerLandmark : Event → Bool
  | .genName _ => true
  | .timerStart => true
  | .timerStop => true
  | .newWriter => true
  | .writerClose => true
  | _ => false

/-- Is the event the `timerStart` boundary. -/
def Event.isTimerStart : Event → Bool
  | .timerStart => true
  | _ => false

/-- Is the event a name generation. -/
def Event.isGenName : Event → Bool
  | .genName _ => true
  | _ => false

/-- Does the measured interval start before the object name is generated:
the index of the first `timerStart` is below the index of the first
`genName`. -/
def timerStartsBeforeName (es : List Event) : Bool :=
  es.findIdx Event.isTimerStart < es.findIdx Event.isGenName

/-- Is the event the final duration print. -/
def Event.isPrintTotal : Event → Bool
  | .printTotal _ => true
  | _ => false

/-- Is the event a client-construction or network-reaching call of the
Transfer Benchmark. -/
def Event.isClientOrNetwork : Event → Bool
  | .newGRPCClient => true
  | .newHTTPClient => true
  | .newHTTPTransport => true
  | .newWriter => true
  | .newRangeReader _ _ => true
  | .writeN _ => true
  | .readAndDiscard _ => true
  | _ => false

/-- Number of storage-layout lookups in a trace. -/
def countLayoutCalls (es : List Event) : Nat :=
  (es.filter fun e =>
    match e with
    | Event.getStorageLayout _ => true
    | _ => false).length

/-- Does the trace end in a fatal process termination. -/
def endsWithFatal (es : List Event) : Bool :=
  match es.getLast? with
  | some (Event.fatal _) => true
  | _ => false

/-! ## Claims -/

set_option maxRecDepth 8000

/-- C1, counterexample.  The claim states that with `-add-spans` disabled
no span-producing call occurs anywhere, in particular none during the
download phase.  It is false: a successful download run with
`withSpan = false` performs two `Tracer.Start` calls (lines 199 and 228
of `src/unnamed/part_000`), which are unconditional. -/
theorem C1_counterexample :
    countSpanStarts (TransferBench.download "trace_x" "http2" false
      TransferBench.dAllOk).1 ≠ 0 := by
  decide

/-- C1, amended.  With `-add-spans` disabled, the upload phase performs no
span-producing call on any stub outcome, but the download phase still
unconditionally produces spans: a successful download run performs exactly
two span-producing calls (`user-span-1` and `user-span-2`). -/
theorem C1_amended (objectId api objectName : String)
    (su : TransferBench.UploadStub) :
    countSpanStarts (TransferBench.upload objectId api false su).1 = 0 ∧
    countSpanStarts (TransferBench.download objectName api false
      TransferBench.dAllOk).1 = 2 := by
  obtain ⟨c, k⟩ := su
  cases c <;> cases k <;> exact ⟨rfl, rfl⟩

/-- C2.  Every successful run of the download phase (all collaborator
calls succeed), with or without the tracing wrapper, opens one ranged
read stream at offset 0 with length 1 MiB and then, in order, reads and
discards 1 KiB, sleeps 100 seconds, reads and discards 1 MiB − 1 KiB,
sleeps 5 seconds, and closes the stream; the reads total exactly
1 MiB. -/
theorem C2_download_read_phase (objectName api : String) (w : Bool) :
    (TransferBench.download objectName api w TransferBench.dAllOk).2 = true ∧
    ((TransferBench.download objectName api w TransferBench.dAllOk).1).filter
      Event.isReadPhase =
      [Event.newRangeReader 0 (1024 * 1024), Event.readAndDiscard 1024,
       Event.sleepSec 100, Event.readAndDiscard (1024 * 1024 - 1024),
       Event.sleepSec 5, Event.readerClose] ∧
    readTotal ((TransferBench.download objectName api w
      TransferBench.dAllOk).1) = 1024 * 1024 := by
  cases w <;>
    exact ⟨rfl, rfl, by
      simp [TransferBench.download, TransferBench.dAllOk, readTotal]⟩

/-- C3.  Every successful run of the upload phase, with or without the
tracing wrapper, generates an object name of the form
`trace_<random-id>`, then opens a write stream, sleeps exactly one
second, writes exactly 10 MiB (of bytes drawn from `crypto/rand`), and
closes the stream, in that order.  Uniqueness of the name across runs
rests on the collaborator UUID generator, represented here by the
`objectId` parameter. -/
theorem C3_upload_write_phase (objectId api : String) (w : Bool) :
    (TransferBench.upload objectId api w TransferBench.uAllOk).2 = true ∧
    ((TransferBench.upload objectId api w TransferBench.uAllOk).1).filter
      Event.isWritePhase =
      [Event.genName ("trace_" ++ objectId), Event.newWriter,
       Event.sleepSec 1, Event.writeN (10 * 1024 * 1024),
       Event.writerClose] := by
  cases w <;> exact ⟨rfl, rfl⟩

/-- C4, counterexample.  The claim states that with tracing enabled
exactly two spans are opened during the download phase.  It is false: a
successful download run with `withSpan = true` opens three spans — the
wrapper span `downloads` plus the two user spans. -/
theorem C4_counterexample :
    countSpanStarts (TransferBench.download "trace_x" "http2" true
      TransferBench.dAllOk).1 ≠ 2 := by
  decide

/-- C4, amended.  With tracing enabled, a successful download run opens
and closes three spans: the wrapper span `downloads` is open for the
whole phase, and within it the two user spans are opened and closed in
sequence, never overlapping each other — `user-span-1` is closed before
`user-span-2` is opened. -/
theorem C4_amended (objectName api : String) :
    countSpanStarts (TransferBench.download objectName api true
      TransferBench.dAllOk).1 = 3 ∧
    spanTrace (TransferBench.download objectName api true
      TransferBench.dAllOk).1 =
      [Event.spanStart "go-ups" "downloads",
       Event.spanStart "go-downs" "user-span-1",
       Event.spanEnd "user-span-1",
       Event.spanStart "go-ups" "user-span-2",
       Event.spanEnd "user-span-2",
       Event.spanEnd "downloads"] := ⟨rfl, rfl⟩

/-- C5, counterexample.  The claim states that the measured upload
interval starts just before the object name is generated.  It is false:
in the upload trace the name generation strictly precedes the timer
start (`start := time.Now()` at line 157 comes after the
`objectName` initialization at line 141), as the landmark subtrace
shows. -/
theorem C5_counterexample :
    timerStartsBeforeName (TransferBench.upload "x" "http2" false
      TransferBench.uAllOk).1 = false ∧
    ((TransferBench.upload "x" "http2" false TransferBench.uAllOk).1).filter
      Event.isTimerLandmark =
      [Event.genName "trace_x", Event.timerStart, Event.newWriter,
       Event.writerClose, Event.timerStop] := by
  decide

/-- C5, amended.  On every run of the upload phase (any stub outcome,
with or without the tracing wrapper), the measured interval starts just
after the object name is generated — immediately before the write
stream is opened — and ends just after the write stream closes, so the
interval excludes name generation. -/
theorem C5_amended (objectId api : String) (w : Bool)
    (s : TransferBench.UploadStub) :
    ((TransferBench.upload objectId api w s).1).filter
      Event.isTimerLandmark =
      [Event.genName ("trace_" ++ objectId), Event.timerStart,
       Event.newWriter, Event.writerClose, Event.timerStop] := by
  obtain ⟨c, k⟩ := s
  cases c <;> cases k <;> cases w <;> rfl

/-- C6, counterexample.  The claim states that the tracing teardown is
invoked on every exit path, including the fatal-error paths.  It is
false: when the upload copy fails, `log.Fatalf` terminates the process
at once, the deferred `close()` never runs, and the trace ends in the
fatal event with no teardown event anywhere. -/
theorem C6_counterexample :
    Event.teardownTracing ∉
      TransferBench.main "http2" "x" false "" (TransferBench.mUploadFail 0 0) ∧
    endsWithFatal
      (TransferBench.main "http2" "x" false "" (TransferBench.mUploadFail 0 0)) =
      true := by
  decide

/-- C6, amended.  For every valid `-api` value, the tracing teardown is
invoked, as the very last action, on the normal success exit path; but
on the fatal-error paths taken when the upload fails or when the
download fails, the process exits immediately without invoking the
teardown. -/
theorem C6_amended (api objectId cpuprofile : String) (addSpans : Bool)
    (dU dD : Nat) (h : TransferBench.apiValid api = true) :
    (TransferBench.main api objectId addSpans cpuprofile
      (TransferBench.mAllOk dU dD)).getLast? = some Event.teardownTracing ∧
    Event.teardownTracing ∉
      TransferBench.main api objectId addSpans cpuprofile
        (TransferBench.mUploadFail dU dD) ∧
    Event.teardownTracing ∉
      TransferBench.main api objectId addSpans cpuprofile
        (TransferBench.mDownloadFail dU dD) := by
  have hapi : (api = TransferBench.dp ∨ api = TransferBench.http2) ∨
      api = TransferBench.http1 := by
    simpa [TransferBench.apiValid, Bool.or_eq_true, beq_iff_eq] using h
  by_cases hcp : cpuprofile = ""
  · subst hcp
    rcases hapi with (h1 | h1) | h1 <;> subst h1 <;> cases addSpans <;>
      exact ⟨rfl,
        by
          simp [TransferBench.main, TransferBench.upload,
                TransferBench.mUploadFail, TransferBench.getClient,
                TransferBench.apiValid, TransferBench.dp, TransferBench.http1,
                TransferBench.http2],
        by
          simp [TransferBench.main, TransferBench.upload,
                TransferBench.download, TransferBench.mDownloadFail,
                TransferBench.uAllOk, TransferBench.getClient,
                TransferBench.apiValid, TransferBench.dp, TransferBench.http1,
                TransferBench.http2]⟩
  · rcases hapi with (h1 | h1) | h1 <;> subst h1 <;> cases addSpans <;>
      refine ⟨?_, ?_, ?_⟩ <;>
        simp [TransferBench.main, TransferBench.upload, TransferBench.download,
              TransferBench.mAllOk, TransferBench.mUploadFail,
              TransferBench.mDownloadFail, TransferBench.uAllOk,
              TransferBench.dAllOk, TransferBench.getClient,
              TransferBench.apiValid, hcp, TransferBench.dp,
              TransferBench.http1, TransferBench.http2]

/-- C6, witness for the amended theorem at `api = "http2"`, no CPU
profile, tracing wrapper disabled. -/
theorem C6_witness :
    (TransferBench.main "http2" "x" false ""
      (TransferBench.mAllOk 0 0)).getLast? = some Event.teardownTracing ∧
    Event.teardownTracing ∉
      TransferBench.main "http2" "x" false "" (TransferBench.mUploadFail 0 0) ∧
    Event.teardownTracing ∉
      TransferBench.main "http2" "x" false "" (TransferBench.mDownloadFail 0 0) :=
  C6_amended "http2" "x" "" false 0 0 (by decide)

/-- C7.  On every run with a valid `-api` value in which both phases
succeed, exactly one duration is printed and it equals the measured
upload duration plus the measured download duration: the printed sum is
`timetakenC + timetakenD + timetakenU` where `timetakenC` stays `0`, so
no other term contributes. -/
theorem C7_total_duration (api objectId cpuprofile : String) (addSpans : Bool)
    (dU dD : Nat) (h : TransferBench.apiValid api = true) :
    (TransferBench.main api objectId addSpans cpuprofile
      (TransferBench.mAllOk dU dD)).filter Event.isPrintTotal =
      [Event.printTotal (dU + dD)] := by
  have hapi : (api = TransferBench.dp ∨ api = TransferBench.http2) ∨
      api = TransferBench.http1 := by
    simpa [TransferBench.apiValid, Bool.or_eq_true, beq_iff_eq] using h
  by_cases hcp : cpuprofile = "" <;>
    rcases hapi with (h1 | h1) | h1 <;> subst h1 <;> cases addSpans <;>
      simp [TransferBench.main, TransferBench.upload, TransferBench.download,
            TransferBench.mAllOk, TransferBench.uAllOk, TransferBench.dAllOk,
            TransferBench.getClient, TransferBench.apiValid, hcp,
            Event.isPrintTotal, TransferBench.dp, TransferBench.http1,
            TransferBench.http2, Nat.add_comm]

/-- C7, witness: with stub durations 3 and 5 the printed total is 8. -/
theorem C7_witness :
    (TransferBench.main "http2" "x" false ""
      (TransferBench.mAllOk 3 5)).filter Event.isPrintTotal =
      [Event.printTotal 8] :=
  C7_total_duration "http2" "x" "" false 3 5 (by decide)

/-- C8.  For every `-api` value outside `{http1, http2, grpc-dp}` the
run consists of the single fatal event from the `default` branch of
`getClient` — the process terminates without any client-construction or
network-reaching call, whatever the other flags and stub outcomes. -/
theorem C8_invalid_api (api objectId cpuprofile : String) (addSpans : Bool)
    (s : TransferBench.MainStub) (h1 : api ≠ "http1") (h2 : api ≠ "http2")
    (h3 : api ≠ "grpc-dp") :
    TransferBench.main api objectId addSpans cpuprofile s =
      [Event.fatal "invalid -api"] ∧
    ∀ e ∈ TransferBench.main api objectId addSpans cpuprofile s,
      Event.isClientOrNetwork e = false := by
  have hm : TransferBench.main api objectId addSpans cpuprofile s =
      [Event.fatal "invalid -api"] := by
    simp [TransferBench.main, TransferBench.getClient, TransferBench.apiValid,
          TransferBench.dp, TransferBench.http1, TransferBench.http2,
          h1, h2, h3]
  refine ⟨hm, ?_⟩
  rw [hm]
  simp [Event.isClientOrNetwork]

/-- C8, witness at the unrecognized flag value `"bogus"`. -/
theorem C8_witness :
    TransferBench.main "bogus" "x" false "" (TransferBench.mAllOk 0 0) =
      [Event.fatal "invalid -api"] :=
  (C8_invalid_api "bogus" "x" "" false (TransferBench.mAllOk 0 0)
    (by decide) (by decide) (by decide)).1

/-- C9.  For every combination of collaborator outcomes, the Layout
Inspector first obtains default credentials scoped for full storage
control; it issues at most one storage-layout lookup; on full success
its run is exactly: token source, control-client construction, client
print, one lookup for the hardcoded bucket's resource path, layout
print; on any failure the run ends in a fatal termination, the layout is
never printed, and no retry occurs. -/
theorem C9_layout_inspector : ∀ t c k : Bool,
    (LayoutInspector.main t c k).head? =
      some (Event.getTokenSource LayoutInspector.scope) ∧
    countLayoutCalls (LayoutInspector.main t c k) ≤ 1 ∧
    ((t && c && k) = true →
      LayoutInspector.main t c k =
        [Event.getTokenSource LayoutInspector.scope, Event.newControlClient,
         Event.printClient, Event.getStorageLayout LayoutInspector.layoutName,
         Event.printLayout]) ∧
    ((t && c && k) = false →
      endsWithFatal (LayoutInspector.main t c k) = true ∧
      Event.printLayout ∉ LayoutInspector.main t c k) := by
  decide

/-- C9, witness: the success run in full, and a failing lookup ending
fatally. -/
theorem C9_witness :
    LayoutInspector.main true true true =
      [Event.getTokenSource LayoutInspector.scope, Event.newControlClient,
       Event.printClient, Event.getStorageLayout LayoutInspector.layoutName,
       Event.printLayout] ∧
    endsWithFatal (LayoutInspector.main true true false) = true :=
  ⟨(C9_layout_inspector true true true).2.2.1 (by decide),
   ((C9_layout_inspector true true false).2.2.2 (by decide)).1⟩

/-- C10.  On every run of the download phase no attribute-setting call
ever targets `user-span-2`; on a successful run the span/attribute
subtrace shows that the `SetAttributes` call issued right after
`user-span-2` is created is applied to `user-span-1`, which was already
ended — so `user-span-2` is exported without the object-name and
transport-mode attributes. -/
theorem C10_span2_attrs (objectName api : String) (w : Bool)
    (s : TransferBench.DownloadStub) :
    attrTargets "user-span-2" (TransferBench.download objectName api w s).1 =
      false ∧
    spanAttrTrace (TransferBench.download objectName api false
      TransferBench.dAllOk).1 =
      [Event.spanStart "go-downs" "user-span-1",
       Event.setAttr "user-span-1" objectName api,
       Event.spanEnd "user-span-1",
       Event.spanStart "go-ups" "user-span-2",
       Event.setAttr "user-span-1" objectName api,
       Event.spanEnd "user-span-2"] := by
  obtain ⟨a, b, c, d⟩ := s
  cases a <;> cases b <;> cases c <;> cases d <;> cases w <;> exact ⟨rfl, rfl⟩
